import Mathlib

/-!
Verification development for the carbon-aware query engine
(repository energy-ml-project).

The repository ships a Streamlit demo front end (demo/streamlit_app.py)
and a production configuration file; the engine core (strategy compiler,
carbon signal source, resource profiler, decision policy, scheduler
facade) is referenced by the demo but its modules are not part of the
inspected sources, so those components are modelled here from the
specification, as marked on each definition. Carbon intensities, times
and measured quantities are modelled as rationals; enumerations are
closed inductive types.
-/

namespace CarbonAware

/-- Origin tag of a carbon reading: a live feed value or the
deterministic historical model. -/
inductive Source where
  | live
  | historical
deriving DecidableEq, Repr

/-- Modelled from the spec: CarbonReading is the record
value (gCO2 per kWh), timestamp, source tag; the stale flag records the
served-past-TTL mark described for the cache. -/
structure CarbonReading where
  value : ℚ
  timestamp : ℚ
  source : Source
  stale : Bool
deriving DecidableEq, Repr

/-- Modelled from the spec: a forecast point, one per future hour; the
hour field is the offset in hours from now. -/
structure ForecastPoint where
  hour : ℕ
  value : ℚ
deriving DecidableEq, Repr

/-- QueryUrgency, the closed ordered set of urgency tiers from
src/optimizer/selector.py (module referenced by the demo; members from
the spec). -/
inductive QueryUrgency where
  | critical
  | high
  | medium
  | low
  | batch
deriving DecidableEq, Repr

/-- The closed set of execution strategies. -/
inductive Strategy where
  | fast
  | efficient
  | balanced
deriving DecidableEq, Repr

/-- Carbon thresholds pair from configuration
(thresholds.low_carbon / thresholds.high_carbon). -/
structure Thresholds where
  low : ℚ
  high : ℚ
deriving DecidableEq, Repr

/-- Modelled from the spec: the Decision record returned by the
decision policy. -/
structure Decision where
  selected_strategy : Option Strategy
  should_defer : Bool
  defer_minutes : ℕ
  reason : String
  expected_energy : ℚ
  expected_carbon : ℚ
deriving DecidableEq, Repr

/-- Carbon tier classification used by the decision policy. -/
inductive CarbonTier where
  | low
  | medium
  | high
deriving DecidableEq, Repr

/-- Modelled from the spec: classify carbon into LOW (below
thresholds.low), MEDIUM (between), HIGH (at or above thresholds.high). -/
def carbonTier (v : ℚ) (th : Thresholds) : CarbonTier :=
  if v < th.low then .low
  else if v < th.high then .medium
  else .high

/-- Modelled from the spec: only the LOW and BATCH urgency tiers may
defer. -/
def deferrable : QueryUrgency → Bool
  | .low => true
  | .batch => true
  | _ => false

/-- Modelled from the spec: the base carbon-tier to strategy mapping,
LOW to FAST, MEDIUM to BALANCED, HIGH to EFFICIENT. -/
def baseStrategy : CarbonTier → Strategy
  | .low => .fast
  | .medium => .balanced
  | .high => .efficient

/-- Modelled from the spec: shifting the strategy mapping one step
toward FAST, applied for the HIGH urgency tier. -/
def shiftTowardFast : Strategy → Strategy
  | .fast => .fast
  | .balanced => .fast
  | .efficient => .balanced

/-- Modelled from the spec: the 2-D strategy lookup over
(urgency tier, carbon tier). The HIGH urgency tier shifts the base
mapping one step toward FAST (the stated instance: HIGH urgency at
MEDIUM carbon still gets FAST); MEDIUM urgency keeps the base mapping
(the stated scenario: MEDIUM urgency at MEDIUM carbon gets BALANCED). -/
def selectStrategy (u : QueryUrgency) (ct : CarbonTier) : Strategy :=
  if u = .high then shiftTowardFast (baseStrategy ct) else baseStrategy ct

/-- Boolean test used when scanning the forecast: is the point's value
below the low threshold. -/
def belowLow (th : Thresholds) (p : ForecastPoint) : Bool :=
  decide (p.value < th.low)

/-- Modelled from the spec: point with the minimum forecast value
(first such point on ties, scanning left to right). -/
def minValuePoint : List ForecastPoint → Option ForecastPoint
  | [] => none
  | p :: ps => some (ps.foldl (fun acc q => if q.value < acc.value then q else acc) p)

/-- Modelled from the spec: the deferral target, the earliest future
point whose value is below thresholds.low or, failing that, the point
with the minimum forecast value. -/
def findDeferPoint (forecast : List ForecastPoint) (th : Thresholds) :
    Option ForecastPoint :=
  match forecast.find? (belowLow th) with
  | some p => some p
  | none => minValuePoint forecast

/-- Modelled from the spec: static per-strategy expected-energy
estimate (calibrated constants, display-only). -/
def expectedEnergyFor : Strategy → ℚ
  | .fast => 100
  | .balanced => 60
  | .efficient => 30

namespace DecisionPolicy

/-- Helper building the non-deferring Decision for a selected
strategy. -/
def selectDecision (u : QueryUrgency) (carbonValue : ℚ) (th : Thresholds) :
    Decision :=
  let s := selectStrategy u (carbonTier carbonValue th)
  { selected_strategy := some s
    should_defer := false
    defer_minutes := 0
    reason := "strategy by urgency and carbon tier"
    expected_energy := expectedEnergyFor s
    expected_carbon := expectedEnergyFor s * carbonValue / 3600000 }

/-- Modelled from the spec: DecisionPolicy.decide. CRITICAL always
selects FAST and never defers; if urgency permits deferral and carbon
is HIGH, defer to the point given by findDeferPoint (falling through to
strategy selection when the forecast is empty or the chosen point has
zero offset); otherwise select by the 2-D (urgency, carbon) lookup. -/
def decide (u : QueryUrgency) (carbon : CarbonReading)
    (forecast : List ForecastPoint) (th : Thresholds) : Decision :=
  if u = .critical then
    { selected_strategy := some .fast
      should_defer := false
      defer_minutes := 0
      reason := "critical urgency dominates carbon"
      expected_energy := expectedEnergyFor .fast
      expected_carbon := expectedEnergyFor .fast * carbon.value / 3600000 }
  else if deferrable u ∧ carbonTier carbon.value th = .high then
    match findDeferPoint forecast th with
    | some p =>
        if p.hour = 0 then selectDecision u carbon.value th
        else
          { selected_strategy := none
            should_defer := true
            defer_minutes := 60 * p.hour
            reason := "deferred to lower-carbon forecast point"
            expected_energy := expectedEnergyFor .efficient
            expected_carbon := expectedEnergyFor .efficient * carbon.value / 3600000 }
    | none => selectDecision u carbon.value th
  else selectDecision u carbon.value th

end DecisionPolicy

/-- Modelled from the spec: ExecutionMetrics produced by the resource
profiler (immutable record of one execution attempt). -/
structure ExecutionMetrics where
  duration_ms : ℚ
  energy_joules : ℚ
  power_watts : ℚ
  cpu_percent : ℚ
  memory_mb : ℚ
deriving DecidableEq, Repr

/-- Modelled from the spec: carbon_grams, a pure derived quantity
recomputed on every call from the caller-supplied intensity, equal to
energy_joules times the intensity divided by 3600000 (J to kWh). -/
def ExecutionMetrics.carbon_grams (m : ExecutionMetrics) (carbonValue : ℚ) : ℚ :=
  m.energy_joules * carbonValue / 3600000

/-- Concrete execution configuration produced by the strategy
compiler. -/
structure ExecutionConfig where
  thread_count : ℕ
  optimization_level : ℕ
deriving DecidableEq, Repr

/-- Configuration errors, fatal at startup. -/
inductive ConfigError where
  | invalidMaxThreads
deriving DecidableEq, Repr

namespace StrategyCompiler

/-- Modelled from the spec: StrategyCompiler.compile, a pure function
of the strategy and the static max_threads ceiling. FAST gets the full
ceiling with eager optimization, EFFICIENT a single thread, BALANCED
the midpoint floored at one thread. Fails exactly when max_threads is
below one. -/
def compile (max_threads : ℕ) (s : Strategy) : Except ConfigError ExecutionConfig :=
  if max_threads < 1 then .error .invalidMaxThreads
  else .ok (match s with
    | .fast => { thread_count := max_threads, optimization_level := 3 }
    | .efficient => { thread_count := 1, optimization_level := 1 }
    | .balanced => { thread_count := max 1 (max_threads / 2), optimization_level := 2 })

/-- Modelled from the spec: the fixed ordered strategy sequence exposed
for comparison workflows. -/
def all_strategies : List Strategy := [.fast, .efficient, .balanced]

/-- Thread count actually handed to the executor for a strategy; zero
when compilation failed (startup would already have aborted). -/
def threadsFor (max_threads : ℕ) (s : Strategy) : ℕ :=
  match compile max_threads s with
  | .ok c => c.thread_count
  | .error _ => 0

end StrategyCompiler

/-- Static profiler calibration: base power draw and maximum draw per
core, in watts. -/
structure ProfilerConfig where
  basePower : ℚ
  maxDrawPerCore : ℚ
deriving DecidableEq, Repr

/-- Environment observed during one run: elapsed wall-clock time and
the sampled CPU and memory figures. -/
structure RunSample where
  duration_ms : ℚ
  cpu_percent : ℚ
  memory_mb : ℚ
deriving DecidableEq, Repr

namespace ResourceProfiler

/-- Modelled from the spec: the estimation tier of
ResourceProfiler.measure. Power is base power plus cpu percent over 100
times the per-core draw times active threads; energy is power times
duration in seconds. -/
def measure (pc : ProfilerConfig) (threads : ℕ) (s : RunSample) : ExecutionMetrics :=
  let powerW := pc.basePower + s.cpu_percent / 100 * pc.maxDrawPerCore * (threads : ℚ)
  { duration_ms := s.duration_ms
    energy_joules := powerW * (s.duration_ms / 1000)
    power_watts := powerW
    cpu_percent := s.cpu_percent
    memory_mb := s.memory_mb }

end ResourceProfiler

namespace Engine

/-- Modelled from the spec: compare_strategies runs every declared
strategy against the same query sequentially, in the fixed declared
order, independent of the policy, and returns the strategy-keyed
metrics. The per-strategy run environment is abstracted as a function
from the strategy to the observed RunSample. -/
def compare_strategies (pc : ProfilerConfig) (max_threads : ℕ)
    (samples : Strategy → RunSample) : List (Strategy × ExecutionMetrics) :=
  StrategyCompiler.all_strategies.map (fun s =>
    (s, ResourceProfiler.measure pc (StrategyCompiler.threadsFor max_threads s) (samples s)))

end Engine

/-- Failure modes of one live-feed fetch attempt. -/
inductive FetchError where
  | network
  | non2xx
  | malformed
  | timeout
deriving DecidableEq, Repr

/-- Outcome of one live-feed fetch attempt: an intensity value or a
failure. -/
abbrev FetchOutcome : Type := Except FetchError ℚ

/-- Whether a fetch outcome is a failure. -/
def fetchFailed : FetchOutcome → Bool
  | .error _ => true
  | .ok _ => false

/-- Carbon source configuration: cache TTL in minutes and the region
code. -/
structure SourceConfig where
  ttlMinutes : ℚ
  region : String
deriving DecidableEq, Repr

/-- Cache entry of the carbon signal cache: the cached reading and the
time it was fetched. -/
structure CacheEntry where
  reading : CarbonReading
  fetched_at : ℚ
deriving DecidableEq, Repr

/-- Hour of day derived from a time in minutes. -/
def hourOfDay (now : ℚ) : ℤ := ⌊now / 60⌋ % 24

/-- Day of week derived from a time in minutes. -/
def dayOfWeek (now : ℚ) : ℤ := ⌊now / 1440⌋ % 7

/-- Modelled from the spec: the deterministic historical model, a
function of region, hour of day and day of week producing a plausible
intensity curve. -/
def historicalValue (region : String) (now : ℚ) : ℚ :=
  200 + 10 * ((region.length % 5 : ℕ) : ℚ) + 15 * ((hourOfDay now : ℚ))
    + 5 * ((dayOfWeek now : ℚ))

namespace CarbonSignalSource

/-- Modelled from the spec: one call to current(). On a cache hit
within the TTL the cached reading is returned with its original
timestamp and the fetch is not attempted. On a miss a live fetch is
attempted: success yields a LIVE reading that overwrites the cache;
failure serves the last-known-good value marked stale when one exists,
and otherwise the historical model tagged HISTORICAL. The function is
total: fetch errors are never propagated. -/
def current (cfg : SourceConfig) (st : Option CacheEntry) (now : ℚ)
    (fetch : FetchOutcome) : CarbonReading × Option CacheEntry :=
  match st with
  | some e =>
      if now - e.fetched_at ≤ cfg.ttlMinutes then (e.reading, st)
      else
        match fetch with
        | .ok v =>
            let r : CarbonReading := ⟨v, now, .live, false⟩
            (r, some ⟨r, now⟩)
        | .error _ => ({ e.reading with stale := true }, st)
  | none =>
      match fetch with
      | .ok v =>
          let r : CarbonReading := ⟨v, now, .live, false⟩
          (r, some ⟨r, now⟩)
      | .error _ =>
          (⟨historicalValue cfg.region now, now, .historical, false⟩, none)

/-- A sequence of current() calls: each event is the call time paired
with the outcome the live feed would give; returns the served readings
in order. -/
def runTrace (cfg : SourceConfig) : Option CacheEntry → List (ℚ × FetchOutcome) → List CarbonReading
  | _, [] => []
  | st, (t, f) :: rest =>
      let step := current cfg st t f
      step.1 :: runTrace cfg step.2 rest

/-- Well-formed cache states: empty, or holding a non-stale reading
whose timestamp is its fetch time. -/
def WFCache : Option CacheEntry → Prop
  | none => True
  | some e => e.reading.timestamp = e.fetched_at ∧ e.reading.stale = false

/-- Two consecutive current() calls from a fresh source: the first at
time t1 with a successful live fetch, the second at time t2 with an
arbitrary feed outcome (which a cache hit never consults). -/
def twoCalls (cfg : SourceConfig) (t1 t2 v : ℚ) (o2 : FetchOutcome) :
    (CarbonReading × Option CacheEntry) × (CarbonReading × Option CacheEntry) :=
  (current cfg none t1 (.ok v),
   current cfg (current cfg none t1 (.ok v)).2 t2 o2)

end CarbonSignalSource

/-- Dotted option paths present in the shipped configuration file
config/production.yaml, transcribed from the source in order. -/
def shippedConfigOptions : List String :=
  ["database.path", "database.connection_string",
   "carbon_api.api_key", "carbon_api.zone", "carbon_api.cache_minutes",
   "carbon_api.fallback_to_historical",
   "energy_profiling.enabled", "energy_profiling.use_rapl",
   "energy_profiling.fallback_to_estimation",
   "thresholds.low_carbon", "thresholds.high_carbon",
   "logging.level", "logging.file", "logging.max_bytes", "logging.backup_count",
   "metrics.output_dir", "metrics.auto_save", "metrics.save_interval_minutes"]

/-- The recognized configuration surface exactly as the specification
lists it (spec-side definition, for comparison with the shipped
file). -/
def recognizedOptions : List String :=
  ["database.path",
   "carbon_api.api_key", "carbon_api.zone", "carbon_api.cache_minutes",
   "carbon_api.fallback_to_historical",
   "energy_profiling.enabled", "energy_profiling.use_rapl",
   "energy_profiling.fallback_to_estimation",
   "thresholds.low_carbon", "thresholds.high_carbon",
   "metrics.output_dir", "metrics.auto_save", "metrics.save_interval_minutes"]

namespace Demo

/-- The explain argument the demo passes to engine.execute when the
Execute Query button fires: the constant False literal at
demo/streamlit_app.py line 187, for any state of the Show Explanation
checkbox. -/
def explainArgPassed (_checkbox : Bool) : Bool := false

/-- The engine call made by the Execute Query click handler
(demo/streamlit_app.py lines 183-188): engine.execute over the query
text and urgency with the explain argument above; the engine itself is
abstract here, so the returned triple is opaque. -/
def runExecuteClick {R : Type} (engineExecute : String → QueryUrgency → Bool → R)
    (sql : String) (u : QueryUrgency) (checkbox : Bool) : R :=
  engineExecute sql u (explainArgPassed checkbox)

/-- Rendering of the decision expander (demo/streamlit_app.py line
197): shown only when the checkbox is set, over the already-returned
decision. -/
def renderDecision (checkbox : Bool) (d : Decision) : Option Decision :=
  if checkbox then some d else none

end Demo

/-! ## Theorems -/

/-- C1: for every carbon reading, every forecast, and every thresholds
pair, decide called with urgency CRITICAL returns a Decision with
should_defer false and selected_strategy FAST. -/
theorem critical_always_fast_never_defers (carbon : CarbonReading)
    (forecast : List ForecastPoint) (th : Thresholds) :
    (DecisionPolicy.decide .critical carbon forecast th).should_defer = false ∧
    (DecisionPolicy.decide .critical carbon forecast th).selected_strategy = some .fast := by
  constructor <;> rfl

lemma carbonTier_eq_low {v : ℚ} {th : Thresholds} (h : v < th.low) :
    carbonTier v th = .low := by
  simp [carbonTier, h]

lemma carbonTier_eq_medium {v : ℚ} {th : Thresholds} (hl : th.low ≤ v)
    (hh : v < th.high) : carbonTier v th = .medium := by
  simp [carbonTier, not_lt.mpr hl, hh]

lemma carbonTier_eq_high {v : ℚ} {th : Thresholds} (hth : th.low ≤ th.high)
    (hh : th.high ≤ v) : carbonTier v th = .high := by
  have : ¬ v < th.low := not_lt.mpr (le_trans hth hh)
  simp [carbonTier, this, not_lt.mpr hh]

lemma decide_of_not_deferrable (u : QueryUrgency) (carbon : CarbonReading)
    (forecast : List ForecastPoint) (th : Thresholds)
    (hcrit : u ≠ .critical) (hdef : deferrable u = false) :
    DecisionPolicy.decide u carbon forecast th
      = DecisionPolicy.selectDecision u carbon.value th := by
  unfold DecisionPolicy.decide
  rw [if_neg hcrit, if_neg]
  intro hcontra
  rw [hdef] at hcontra
  exact Bool.false_ne_true hcontra.1

/-- C3: strategy selection is a 2-D lookup over (urgency tier, carbon
tier). With the base mapping LOW to FAST, MEDIUM to BALANCED, HIGH to
EFFICIENT, HIGH urgency at MEDIUM carbon is shifted one step toward
FAST, while MEDIUM urgency at MEDIUM carbon keeps BALANCED and does
not defer; MEDIUM urgency also realizes the base mapping at LOW and
HIGH carbon. -/
theorem strategy_lookup_2d (th : Thresholds) (carbon : CarbonReading)
    (f : List ForecastPoint) (hl : th.low ≤ carbon.value)
    (hh : carbon.value < th.high) :
    (DecisionPolicy.decide .high carbon f th).should_defer = false ∧
    (DecisionPolicy.decide .high carbon f th).selected_strategy = some .fast ∧
    (DecisionPolicy.decide .medium carbon f th).should_defer = false ∧
    (DecisionPolicy.decide .medium carbon f th).selected_strategy = some .balanced ∧
    (∀ w : CarbonReading, w.value < th.low →
      (DecisionPolicy.decide .medium w f th).selected_strategy = some .fast) ∧
    (∀ w : CarbonReading, th.high ≤ w.value →
      (DecisionPolicy.decide .medium w f th).selected_strategy = some .efficient) := by
  have hmed := carbonTier_eq_medium hl hh
  have hth : th.low ≤ th.high := le_trans hl (le_of_lt hh)
  refine ⟨?_, ?_, ?_, ?_, ?_, ?_⟩
  · rw [decide_of_not_deferrable .high carbon f th (by simp) rfl]
    rfl
  · rw [decide_of_not_deferrable .high carbon f th (by simp) rfl]
    simp [DecisionPolicy.selectDecision, selectStrategy, hmed, baseStrategy,
      shiftTowardFast]
  · rw [decide_of_not_deferrable .medium carbon f th (by simp) rfl]
    rfl
  · rw [decide_of_not_deferrable .medium carbon f th (by simp) rfl]
    simp [DecisionPolicy.selectDecision, selectStrategy, hmed, baseStrategy]
  · intro w hw
    rw [decide_of_not_deferrable .medium w f th (by simp) rfl]
    simp [DecisionPolicy.selectDecision, selectStrategy, carbonTier_eq_low hw,
      baseStrategy]
  · intro w hw
    rw [decide_of_not_deferrable .medium w f th (by simp) rfl]
    simp [DecisionPolicy.selectDecision, selectStrategy,
      carbonTier_eq_high hth hw, baseStrategy]

/-- C3 witness: with thresholds low 250 high 500, HIGH urgency at
carbon 300 selects FAST without deferring, MEDIUM urgency at carbon 300
selects BALANCED without deferring, MEDIUM urgency at carbon 100
selects FAST and at carbon 600 selects EFFICIENT. -/
theorem strategy_lookup_2d_witness :
    (DecisionPolicy.decide .high ⟨300, 0, .live, false⟩ [] ⟨250, 500⟩).should_defer = false ∧
    (DecisionPolicy.decide .high ⟨300, 0, .live, false⟩ [] ⟨250, 500⟩).selected_strategy = some .fast ∧
    (DecisionPolicy.decide .medium ⟨300, 0, .live, false⟩ [] ⟨250, 500⟩).should_defer = false ∧
    (DecisionPolicy.decide .medium ⟨300, 0, .live, false⟩ [] ⟨250, 500⟩).selected_strategy = some .balanced ∧
    (DecisionPolicy.decide .medium ⟨100, 0, .live, false⟩ [] ⟨250, 500⟩).selected_strategy = some .fast ∧
    (DecisionPolicy.decide .medium ⟨600, 0, .live, false⟩ [] ⟨250, 500⟩).selected_strategy = some .efficient := by
  have h := strategy_lookup_2d ⟨250, 500⟩ ⟨300, 0, .live, false⟩ []
    (by norm_num) (by norm_num)
  exact ⟨h.1, h.2.1, h.2.2.1, h.2.2.2.1,
    h.2.2.2.2.1 ⟨100, 0, .live, false⟩ (by norm_num),
    h.2.2.2.2.2 ⟨600, 0, .live, false⟩ (by norm_num)⟩

/-- C2: with valid thresholds, carbon at or above thresholds.high,
urgency LOW or BATCH, and a forecast (of future, nonzero-offset hourly
points) whose earliest point below thresholds.low is p, decide defers
and the deferral equals the minute offset of p, the first such point in
scan order, not the minimum-value point. -/
theorem defer_to_earliest_below_low (carbon : CarbonReading) (u : QueryUrgency)
    (forecast : List ForecastPoint) (th : Thresholds) (p : ForecastPoint)
    (hth : th.low ≤ th.high)
    (hc : th.high ≤ carbon.value)
    (hu : u = .low ∨ u = .batch)
    (hfind : forecast.find? (belowLow th) = some p)
    (hfut : 1 ≤ p.hour) :
    (DecisionPolicy.decide u carbon forecast th).should_defer = true ∧
    (DecisionPolicy.decide u carbon forecast th).defer_minutes = 60 * p.hour := by
  have hcrit : u ≠ .critical := by rcases hu with h | h <;> subst h <;> simp
  have hdef : deferrable u = true := by rcases hu with h | h <;> subst h <;> rfl
  have htier := carbonTier_eq_high hth hc
  have hfd : findDeferPoint forecast th = some p := by
    unfold findDeferPoint
    rw [hfind]
  have hp0 : ¬ p.hour = 0 := by omega
  unfold DecisionPolicy.decide
  rw [if_neg hcrit, if_pos ⟨by rw [hdef], htier⟩, hfd]
  simp [hp0]

/-- The forecast of the C2 scenario: 24 hourly points, hour 3 at value
200 and every other hour at 500. -/
def scenarioForecast : List ForecastPoint :=
  (List.range 24).map (fun i => ⟨i + 1, if i + 1 = 3 then 200 else 500⟩)

/-- C2 witness: thresholds low 250 high 500, urgency BATCH, carbon 600,
forecast with hour 3 at 200 and all other hours at 500: the decision
defers by 180 minutes. -/
theorem defer_to_earliest_below_low_witness :
    (DecisionPolicy.decide .batch ⟨600, 0, .live, false⟩ scenarioForecast ⟨250, 500⟩).should_defer = true ∧
    (DecisionPolicy.decide .batch ⟨600, 0, .live, false⟩ scenarioForecast ⟨250, 500⟩).defer_minutes = 180 := by
  have h := defer_to_earliest_below_low ⟨600, 0, .live, false⟩ .batch
    scenarioForecast ⟨250, 500⟩ ⟨3, 200⟩ (by norm_num) (by norm_num)
    (Or.inr rfl) (by decide) (by decide)
  exact ⟨h.1, h.2.trans (by norm_num)⟩

/-- C5: carbon_grams equals energy_joules times the intensity divided
by 3600000, and (as a function of the energy field and the
caller-supplied intensity) it is linear in both arguments; nothing is
cached, the value is recomputed from the intensity on each call. -/
theorem carbon_grams_formula_and_linear (m : ExecutionMetrics) (e c : ℚ)
    (he : 0 ≤ e) (hc : 0 ≤ c) :
    m.carbon_grams c = m.energy_joules * c / 3600000 ∧
    ExecutionMetrics.carbon_grams { m with energy_joules := 2 * e } c
      = 2 * ExecutionMetrics.carbon_grams { m with energy_joules := e } c ∧
    ExecutionMetrics.carbon_grams { m with energy_joules := e } (2 * c)
      = 2 * ExecutionMetrics.carbon_grams { m with energy_joules := e } c := by
  refine ⟨rfl, ?_, ?_⟩ <;> simp [ExecutionMetrics.carbon_grams] <;> ring

/-- C5 witness: the formula and both linearity identities at a concrete
metrics record, energy 7200 J and intensity 500. -/
theorem carbon_grams_formula_and_linear_witness :
    (0:ℚ) ≤ 7200 ∧ (0:ℚ) ≤ 500 ∧
    (ExecutionMetrics.mk 10 7200 720 50 100).carbon_grams 500
      = (7200:ℚ) * 500 / 3600000 ∧
    ExecutionMetrics.carbon_grams
        { ExecutionMetrics.mk 10 7200 720 50 100 with energy_joules := 2 * 7200 } 500
      = 2 * ExecutionMetrics.carbon_grams
        { ExecutionMetrics.mk 10 7200 720 50 100 with energy_joules := 7200 } 500 := by
  have h := carbon_grams_formula_and_linear (ExecutionMetrics.mk 10 7200 720 50 100)
    7200 500 (by norm_num) (by norm_num)
  exact ⟨by norm_num, by norm_num, h.1, h.2.1⟩

/-- C7: compile is a pure function of the strategy and the static
max_threads ceiling; it succeeds exactly for any strategy whenever
max_threads is at least one and fails (only) with the startup
configuration error when max_threads is below one; with max_threads 8,
FAST compiles to 8 threads and EFFICIENT to the floor of one thread. -/
theorem compile_total_above_one_thread (m : ℕ) (s : Strategy) (hm : 1 ≤ m) :
    (∃ cfg, StrategyCompiler.compile m s = .ok cfg) ∧
    (∀ s2, StrategyCompiler.compile 0 s2 = .error .invalidMaxThreads) ∧
    (StrategyCompiler.compile 8 .fast).map ExecutionConfig.thread_count = .ok 8 ∧
    (StrategyCompiler.compile 8 .efficient).map ExecutionConfig.thread_count = .ok 1 := by
  refine ⟨?_, fun s2 => rfl, rfl, rfl⟩
  unfold StrategyCompiler.compile
  rw [if_neg (by omega)]
  exact ⟨_, rfl⟩

/-- C7 witness: the statement instantiated at max_threads 8 and the
BALANCED strategy. -/
theorem compile_total_above_one_thread_witness :
    (∃ cfg, StrategyCompiler.compile 8 .balanced = .ok cfg) ∧
    (∀ s2, StrategyCompiler.compile 0 s2 = .error .invalidMaxThreads) ∧
    (StrategyCompiler.compile 8 .fast).map ExecutionConfig.thread_count = .ok 8 ∧
    (StrategyCompiler.compile 8 .efficient).map ExecutionConfig.thread_count = .ok 1 :=
  compile_total_above_one_thread 8 .balanced (by decide)

/-- C10: the Execute Query click handler always passes the constant
explain argument False to engine.execute, whatever the Show Explanation
checkbox holds, so two runs differing only in the checkbox obtain the
same (result, metrics, decision) value from the engine; the checkbox
only gates rendering of the already-returned decision. -/
theorem explain_checkbox_noninterference :
    (∀ b, Demo.explainArgPassed b = false) ∧
    (∀ (R : Type) (engineExecute : String → QueryUrgency → Bool → R)
       (sql : String) (u : QueryUrgency) (b1 b2 : Bool),
       Demo.runExecuteClick engineExecute sql u b1
         = Demo.runExecuteClick engineExecute sql u b2) ∧
    (∀ d : Decision, Demo.renderDecision true d = some d ∧
       Demo.renderDecision false d = none) := by
  exact ⟨fun b => rfl, fun R eng sql u b1 b2 => rfl, fun d => ⟨rfl, rfl⟩⟩

/-- C4: in a sequence of current() calls in which every live-feed fetch
fails (network error, non-2xx, malformed payload or timeout), every
call returns a reading tagged HISTORICAL; current is a total function,
so fetch errors are never propagated to the caller. -/
theorem failing_feed_always_historical (cfg : SourceConfig)
    (events : List (ℚ × FetchOutcome))
    (hfail : ∀ e ∈ events, fetchFailed e.2 = true) :
    (CarbonSignalSource.runTrace cfg none events).map CarbonReading.source
      = List.replicate events.length .historical := by
  induction events with
  | nil => rfl
  | cons e rest ih =>
      obtain ⟨t, f⟩ := e
      have hf : fetchFailed f = true := hfail _ (List.mem_cons_self _ _)
      cases f with
      | ok w => simp [fetchFailed] at hf
      | error err =>
          have htail := ih (fun e2 he2 => hfail e2 (List.mem_cons_of_mem _ he2))
          simp only [CarbonSignalSource.runTrace, CarbonSignalSource.current,
            List.map_cons, List.length_cons, List.replicate_succ]
          exact congrArg₂ List.cons rfl htail

/-- A concrete two-call trace whose fetches both fail. -/
def failTraceEvents : List (ℚ × FetchOutcome) :=
  [(0, .error .network), (10, .error .timeout)]

/-- C4 witness: on the concrete always-failing two-call trace, both
served readings are tagged HISTORICAL. -/
theorem failing_feed_always_historical_witness :
    (∀ e ∈ failTraceEvents, fetchFailed e.2 = true) ∧
    (CarbonSignalSource.runTrace ⟨5, "US-CAL-CISO"⟩ none failTraceEvents).map CarbonReading.source
      = [.historical, .historical] :=
  ⟨by decide,
   (failing_feed_always_historical ⟨5, "US-CAL-CISO"⟩ failTraceEvents (by decide)).trans rfl⟩

/-- C6: two current() calls on a fresh source, the second within the
TTL of the first, with no fetch failure: both return the same reading
with the original timestamp, the second call performs no refetch (the
cache state is unchanged and the second feed outcome is never
consulted), and the served age is within the TTL; moreover, from any
well-formed cache state, a reading served without the stale mark is at
most TTL old. -/
theorem cache_hit_within_ttl (cfg : SourceConfig) (t1 t2 v : ℚ)
    (o2 : FetchOutcome) (httl : 0 ≤ cfg.ttlMinutes) (h1 : t1 ≤ t2)
    (h2 : t2 - t1 < cfg.ttlMinutes) :
    ((CarbonSignalSource.twoCalls cfg t1 t2 v o2).2.1
      = (CarbonSignalSource.twoCalls cfg t1 t2 v o2).1.1) ∧
    ((CarbonSignalSource.twoCalls cfg t1 t2 v o2).2.2
      = (CarbonSignalSource.twoCalls cfg t1 t2 v o2).1.2) ∧
    ((CarbonSignalSource.twoCalls cfg t1 t2 v o2).1.1.timestamp = t1) ∧
    (t2 - (CarbonSignalSource.twoCalls cfg t1 t2 v o2).2.1.timestamp ≤ cfg.ttlMinutes) ∧
    (∀ (st : Option CacheEntry) (t : ℚ) (o : FetchOutcome),
      CarbonSignalSource.WFCache st →
      (CarbonSignalSource.current cfg st t o).1.stale = false →
      t - (CarbonSignalSource.current cfg st t o).1.timestamp ≤ cfg.ttlMinutes) := by
  have hle : t2 - t1 ≤ cfg.ttlMinutes := le_of_lt h2
  have hsecond : CarbonSignalSource.current cfg
      (some ⟨⟨v, t1, .live, false⟩, t1⟩) t2 o2
      = (⟨v, t1, .live, false⟩, some ⟨⟨v, t1, .live, false⟩, t1⟩) := by
    simp only [CarbonSignalSource.current]
    rw [if_pos hle]
  have hall : CarbonSignalSource.twoCalls cfg t1 t2 v o2
      = ((⟨v, t1, .live, false⟩, some ⟨⟨v, t1, .live, false⟩, t1⟩),
         (⟨v, t1, .live, false⟩, some ⟨⟨v, t1, .live, false⟩, t1⟩)) := by
    unfold CarbonSignalSource.twoCalls
    rw [show CarbonSignalSource.current cfg none t1 (.ok v)
      = (⟨v, t1, .live, false⟩, some ⟨⟨v, t1, .live, false⟩, t1⟩) from rfl]
    rw [hsecond]
  refine ⟨by rw [hall], by rw [hall], by rw [hall], by rw [hall]; linarith, ?_⟩
  intro st t o hwf hstale
  cases st with
  | none =>
      cases o with
      | ok w =>
          simp only [CarbonSignalSource.current]
          linarith
      | error err =>
          simp only [CarbonSignalSource.current]
          linarith
  | some e =>
      simp only [CarbonSignalSource.WFCache] at hwf
      obtain ⟨hts, hst⟩ := hwf
      by_cases hhit : t - e.fetched_at ≤ cfg.ttlMinutes
      · simp only [CarbonSignalSource.current, if_pos hhit]
        rw [hts]
        exact hhit
      · simp only [CarbonSignalSource.current, if_neg hhit] at hstale ⊢
        cases o with
        | ok w =>
            simp only
            linarith
        | error err =>
            simp at hstale

/-- C6 witness: TTL 5 minutes, a live fetch at time 0 and a second call
at time 3 whose feed outcome is irrelevant: identical timestamps, no
refetch, age within TTL. -/
theorem cache_hit_within_ttl_witness :
    ((CarbonSignalSource.twoCalls ⟨5, "US-CAL-CISO"⟩ 0 3 320 (.ok 999)).2.1
      = (CarbonSignalSource.twoCalls ⟨5, "US-CAL-CISO"⟩ 0 3 320 (.ok 999)).1.1) ∧
    ((CarbonSignalSource.twoCalls ⟨5, "US-CAL-CISO"⟩ 0 3 320 (.ok 999)).2.2
      = (CarbonSignalSource.twoCalls ⟨5, "US-CAL-CISO"⟩ 0 3 320 (.ok 999)).1.2) ∧
    ((CarbonSignalSource.twoCalls ⟨5, "US-CAL-CISO"⟩ 0 3 320 (.ok 999)).1.1.timestamp = 0) ∧
    ((3 : ℚ) - (CarbonSignalSource.twoCalls ⟨5, "US-CAL-CISO"⟩ 0 3 320 (.ok 999)).2.1.timestamp ≤ 5) := by
  have h := cache_hit_within_ttl ⟨5, "US-CAL-CISO"⟩ 0 3 320 (.ok 999)
    (by norm_num) (by norm_num) (by norm_num)
  exact ⟨h.1, h.2.1, h.2.2.1, h.2.2.2.1⟩

lemma measure_nonneg (pc : ProfilerConfig) (threads : ℕ) (s : RunSample)
    (hb : 0 ≤ pc.basePower) (hd : 0 ≤ pc.maxDrawPerCore)
    (hdur : 0 ≤ s.duration_ms) (hcpu : 0 ≤ s.cpu_percent) :
    0 ≤ (ResourceProfiler.measure pc threads s).duration_ms ∧
    0 ≤ (ResourceProfiler.measure pc threads s).energy_joules := by
  refine ⟨hdur, ?_⟩
  have hpow : 0 ≤ pc.basePower + s.cpu_percent / 100 * pc.maxDrawPerCore * (threads : ℚ) :=
    add_nonneg hb (mul_nonneg (mul_nonneg (div_nonneg hcpu (by norm_num)) hd)
      (Nat.cast_nonneg threads))
  simp only [ResourceProfiler.measure]
  exact mul_nonneg hpow (div_nonneg hdur (by norm_num))

/-- C8: compare_strategies returns the three declared strategies as
keys, exactly and in the fixed declared order FAST, EFFICIENT,
BALANCED (which is the sequential execution order), each mapped to
metrics with non-negative duration and non-negative energy, under
non-negative calibration and non-negative observed samples. -/
theorem compare_strategies_keys_and_nonneg (pc : ProfilerConfig) (mt : ℕ)
    (samples : Strategy → RunSample)
    (hb : 0 ≤ pc.basePower) (hd : 0 ≤ pc.maxDrawPerCore)
    (hs : ∀ s, 0 ≤ (samples s).duration_ms ∧ 0 ≤ (samples s).cpu_percent) :
    (Engine.compare_strategies pc mt samples).map Prod.fst
      = [.fast, .efficient, .balanced] ∧
    ∀ pr ∈ Engine.compare_strategies pc mt samples,
      0 ≤ pr.2.duration_ms ∧ 0 ≤ pr.2.energy_joules := by
  constructor
  · rfl
  · intro pr hpr
    simp only [Engine.compare_strategies, StrategyCompiler.all_strategies,
      List.map_cons, List.map_nil, List.mem_cons, List.not_mem_nil,
      or_false] at hpr
    rcases hpr with h | h | h <;> subst h <;>
      exact measure_nonneg pc _ (samples _) hb hd (hs _).1 (hs _).2

/-- C8 witness: a concrete profiler calibration, ceiling 8 and a
constant observed sample; keys are exactly the three strategies in
order and every metrics record is non-negative. -/
theorem compare_strategies_keys_and_nonneg_witness :
    (Engine.compare_strategies ⟨10, 5⟩ 8 (fun _ => ⟨100, 50, 20⟩)).map Prod.fst
      = [.fast, .efficient, .balanced] ∧
    ∀ pr ∈ Engine.compare_strategies ⟨10, 5⟩ 8 (fun _ => ⟨100, 50, 20⟩),
      0 ≤ pr.2.duration_ms ∧ 0 ≤ pr.2.energy_joules :=
  compare_strategies_keys_and_nonneg ⟨10, 5⟩ 8 (fun _ => ⟨100, 50, 20⟩)
    (by norm_num) (by norm_num) (fun s => ⟨by norm_num, by norm_num⟩)

/-- C9 counterexample: logging.level is an option of the shipped
configuration file yet lies outside the recognized configuration
surface, so the shipped file does contain options beyond the
recognized list. -/
theorem shipped_config_exceeds_surface :
    "logging.level" ∈ shippedConfigOptions ∧
    "logging.level" ∉ recognizedOptions := by
  decide

/-- C9 amended: every recognized option appears in the shipped
configuration file, and the shipped options outside the recognized
surface are exactly database.connection_string together with the
logging group (level, file, max_bytes, backup_count). -/
theorem config_surface_amended :
    (∀ o ∈ recognizedOptions, o ∈ shippedConfigOptions) ∧
    shippedConfigOptions.filter (fun o => !(recognizedOptions.contains o))
      = ["database.connection_string", "logging.level", "logging.file",
         "logging.max_bytes", "logging.backup_count"] := by
  decide

end CarbonAware
